import Mathlib

/-!
Shallow embedding of the TmuxDeck backend and bridge agent, covering the
bridge connection channel allocator, the bridge WebSocket handshake, the
tmux facade (session listing, command dispatch, pane capture), the
notification manager, and the debug ring buffer.

Machine strings are Lean `String`s; Python string slicing and
concatenation are embedded via explicit helpers on the character list so
that proofs stay elementary.  Parts of the repository that the snapshot
under inspection does not contain (they are imported or called but their
definitions are absent) are modelled from the specification and carry a
doc comment starting with `Modelled from the spec:`.
-/

namespace TmuxDeck

/-- Python `s[n:]` on a string. -/
def strDrop (s : String) (n : Nat) : String := ⟨s.data.drop n⟩

/-- Python `s[:n]` on a string. -/
def strTake (s : String) (n : Nat) : String := ⟨s.data.take n⟩

/-- Python `a + b` / f-string concatenation on strings. -/
def strCat (a b : String) : String := ⟨a.data ++ b.data⟩

/-- Python `s.startswith(p)`. -/
def strStartsWith (s p : String) : Bool := p.data.isPrefixOf s.data

/-! ## services/bridge_manager.py -/

/-- `BRIDGE_PREFIX = "bridge:"` from `services/bridge_manager.py`. -/
def bridgeMarker : String := "bridge:"

/-- `is_bridge(container_id)`: the container id starts with `bridge:`. -/
def is_bridge (container_id : String) : Bool :=
  strStartsWith container_id bridgeMarker

/-- `bridge_id_from_container(container_id) = container_id[len(BRIDGE_PREFIX):]`. -/
def bridge_id_from_container (container_id : String) : String :=
  strDrop container_id 7

/-- Modelled from the spec: `bridge_source_from_container` is imported by
`services/tmux_manager.py` from `services/bridge_manager.py` but its
definition is absent from the snapshot.  The spec fixes ids so that
`session.id == md5(container_id + ":" + session.name)[:12]` while the agent
hashes `"bridge:" + source + ":" + name`; both hold exactly when the
function strips the `bridge:` marker from the container id. -/
def bridge_source_from_container (container_id : String) : String :=
  strDrop container_id 7

/-- State of `BridgeConnection`: pending request ids, the
`channel_id → user WS` relay map (user sockets as numeric tokens), and
`_next_channel`.  (`services/bridge_manager.py`, `__init__`.) -/
structure BridgeConnState where
  pending : List (String × Nat)
  terminals : List (Nat × Nat)
  nextChannel : Nat
  deriving Repr, DecidableEq

/-- A fresh `BridgeConnection` state: no pending requests, no relays,
`_next_channel = 1`. -/
def initConn : BridgeConnState :=
  { pending := [], terminals := [], nextChannel := 1 }

/-- The increment-and-wrap step inside `allocate_channel`:
`self._next_channel += 1; if self._next_channel > 65535: self._next_channel = 1`. -/
def wrapNext (n : Nat) : Nat :=
  if n + 1 > 65535 then 1 else n + 1

/-- `BridgeConnection.allocate_channel` from `services/bridge_manager.py`:
returns the current `_next_channel` and advances it with wraparound.  The
terminals map is not consulted. -/
def allocate_channel (s : BridgeConnState) : Nat × BridgeConnState :=
  (s.nextChannel, { s with nextChannel := wrapNext s.nextChannel })

/-- `BridgeConnection.register_terminal`: `self._terminal_relays[channel_id] = user_ws`. -/
def register_terminal (s : BridgeConnState) (channelId userWs : Nat) : BridgeConnState :=
  { s with terminals := (channelId, userWs) :: s.terminals.filter (fun p => p.1 ≠ channelId) }

/-- `BridgeConnection.unregister_terminal`: `self._terminal_relays.pop(channel_id, None)`. -/
def unregister_terminal (s : BridgeConnState) (channelId : Nat) : BridgeConnState :=
  { s with terminals := s.terminals.filter (fun p => p.1 ≠ channelId) }

/-- `BridgeConnection.get_terminal_ws`: `self._terminal_relays.get(channel_id)`. -/
def get_terminal_ws (s : BridgeConnState) (channelId : Nat) : Option Nat :=
  (s.terminals.find? (fun p => p.1 = channelId)).map (·.2)

/-- Iterated allocation, discarding the returned channel ids. -/
def iterAlloc : Nat → BridgeConnState → BridgeConnState
  | 0, s => s
  | k + 1, s => iterAlloc k (allocate_channel s).2

/-- The timeout (in seconds) of `BridgeConnection.request`:
`async def request(self, msg, timeout: float = 10.0)`. -/
def requestTimeoutSecs : Nat := 10

/-! ## services/tmux_manager.py and the agent listing in bridge/tmuxdeck_bridge/bridge.py -/

/-- `HOST_CONTAINER_ID` / `_is_host`. -/
def is_host (containerId : String) : Bool := containerId == "host"

/-- `LOCAL_CONTAINER_ID` / `_is_local`. -/
def is_local (containerId : String) : Bool := containerId == "local"

/-- Python `str.split(sep)` on character lists (single-character separator,
as used with `"|"` and with newline handling below). -/
def splitChar (sep : Char) : List Char → List (List Char)
  | [] => [[]]
  | c :: rest =>
    match splitChar sep rest with
    | [] => [[c]]
    | h :: t => if c = sep then [] :: h :: t else (c :: h) :: t

/-- Python `str.strip()` on a character list. -/
def pyStrip (l : List Char) : List Char :=
  ((l.dropWhile Char.isWhitespace).reverse.dropWhile Char.isWhitespace).reverse

/-- `output.strip().splitlines()` followed by the per-line `line.strip()`,
as done by every tabular-output parser in `tmux_manager.py` and in the
bridge agent.  Lines are delimited by the newline character. -/
def strippedLines (output : String) : List (List Char) :=
  (splitChar (Char.ofNat 10) (pyStrip output.data)).map pyStrip

/-- One parsed `list-sessions` line: the fields kept by the claims are the
session name (`parts[0]`) and the attached flag (`parts[3] == "1"`). -/
structure SessionLine where
  name : String
  attached : Bool
  deriving Repr, DecidableEq

/-- The line filter and field split shared by `TmuxManager.list_sessions`
and the agent `Bridge._list_tmux_sessions`: skip a line that is empty or
has no `|`; split on `|`; skip it when fewer than 4 fields remain. -/
def parseSessionLines (output : String) : List SessionLine :=
  (strippedLines output).filterMap (fun line =>
    if line = [] ∨ ¬ ('|' ∈ line) then none
    else
      let parts := splitChar '|' line
      if parts.length < 4 then none
      else some { name := ⟨parts.headI⟩, attached := parts.getD 3 [] = ['1'] })

/-- `make_session_id(container_id, session_name) =
md5(f"{container_id}:{session_name}").hexdigest()[:12]`.  The md5 hex
digest (Python `hashlib`, external to the repository) is passed in as the
function `md5hex`. -/
def make_session_id (md5hex : String → String) (containerId sessionName : String) : String :=
  strTake (md5hex (strCat (strCat containerId ":") sessionName)) 12

/-- The session record surfaced by the facade and by the agent: id, name,
the agent-side source (empty for non-bridge records) and the attached
flag. -/
structure SessionRec where
  id : String
  name : String
  source : String := ""
  attached : Bool := false
  deriving Repr, DecidableEq

/-- Agent session id from `Bridge._list_tmux_sessions`:
`hashlib.md5(f"bridge:{source}:{name}".encode()).hexdigest()[:12]`. -/
def agent_session_id (md5hex : String → String) (source name : String) : String :=
  strTake (md5hex (strCat (strCat (strCat "bridge:" source) ":") name)) 12

/-- `Bridge._list_tmux_sessions(extra_args, source)` from the bridge
agent: parse the `list-sessions` output and attach the pre-hashed id and
the source to every record. -/
def agent_list_sessions (md5hex : String → String) (source : String) (output : String) :
    List SessionRec :=
  (parseSessionLines output).map (fun ln =>
    { id := agent_session_id md5hex source ln.name
      name := ln.name
      source := source
      attached := ln.attached })

/-- `TmuxManager.list_sessions(container_id)`: for a bridge container,
return the cached agent-reported sessions filtered by
`s.get("source") == bridge_source_from_container(container_id)` (empty
when no bridge connection exists); otherwise parse the `list-sessions`
output and build each record with `make_session_id`.  `connSessions` is
`conn.sessions` when a connection exists. -/
def list_sessions (md5hex : String → String) (containerId : String)
    (connSessions : Option (List SessionRec)) (output : String) : List SessionRec :=
  if is_bridge containerId then
    match connSessions with
    | none => []
    | some ss => ss.filter (fun s => s.source == bridge_source_from_container containerId)
  else
    (parseSessionLines output).map (fun ln =>
      { id := make_session_id md5hex containerId ln.name
        name := ln.name
        attached := ln.attached })

/-! ## TmuxManager._run_cmd dispatch (C7) -/

/-- Outcome of a bridge `tmux_cmd` RPC as seen by `_run_cmd`: either
`asyncio.wait_for` raised `TimeoutError`, or a `cmd_result` message
arrived carrying optional `error` and `output` fields. -/
inductive RpcOutcome where
  | timeout
  | result (error : Option String) (output : Option String)
  deriving Repr, DecidableEq

/-- Python truthiness of `result.get("error")`: a missing key or an empty
string is falsy. -/
def errTruthy : Option String → Bool
  | none => false
  | some s => s ≠ ""

/-- The execution environment `_run_cmd` draws on: the stdout produced by
the local/host subprocess, the bridge connection (`none` when
`get_bridge_for_container` finds nothing) with its RPC outcome, and the
stdout returned by `DockerManager.exec_command`. -/
structure RunEnv where
  subprocessStdout : String
  bridgeConn : Option RpcOutcome
  dockerStdout : String

/-- `TmuxManager._run_cmd(container_id, cmd)`: dispatch on the container
id.  Local and host run a subprocess and return its stdout; a bridge
container returns `""` when no connection exists, when the correlated
`cmd_result` carries a truthy `error`, or when the RPC times out, and
`result.get("output", "")` otherwise; anything else goes through docker
exec. -/
def runCmd (containerId : String) (env : RunEnv) : String :=
  if is_local containerId then env.subprocessStdout
  else if is_host containerId then env.subprocessStdout
  else if is_bridge containerId then
    match env.bridgeConn with
    | none => ""
    | some .timeout => ""
    | some (.result err out) => if errTruthy err then "" else out.getD ""
  else env.dockerStdout

/-! ## capture_pane and the CAPTURE_PANE control frame (C8) -/

/-- `TmuxManager.capture_pane(container_id, session_name, window_index=0,
ansi=False)` builds
`["tmux", "capture-pane", "-p", "-t", f"{session_name}:{window_index}"]`
and on a truthy `ansi` inserts `"-e"` at index 3.  The `ansi` argument is
kept as the integer the `CAPTURE_PANE` handler actually passes; Python
truthiness of an int is `≠ 0`. -/
def capture_pane_cmd (sessionName : String) (windowIndex : Nat) (ansi : Nat) : List String :=
  let cmd := ["tmux", "capture-pane", "-p", "-t",
    strCat (strCat sessionName ":") (toString windowIndex)]
  if ansi ≠ 0 then cmd.take 3 ++ ["-e"] ++ cmd.drop 3 else cmd

/-- The `CAPTURE_PANE:win.pane` handler in `ws/terminal.py` (both the PTY
and the docker variants): parse `win` and `pane` and call
`tm.capture_pane(container_id, session_name, win_idx, pane_idx)` — the
pane index lands in the `ansi` parameter.  Returns the tmux argv issued. -/
def capture_pane_handler_cmd (sessionName : String) (winIdx paneIdx : Nat) : List String :=
  capture_pane_cmd sessionName winIdx paneIdx

/-- The reply text frame of the `CAPTURE_PANE` handler:
`f"PANE_CONTENT:{win_idx}.{pane_idx}:{content}"`. -/
def capture_pane_reply (winIdx paneIdx : Nat) (content : String) : String :=
  strCat (strCat (strCat (strCat (strCat "PANE_CONTENT:" (toString winIdx)) ".")
    (toString paneIdx)) ":") content

/-- Modelled from the spec: the tmux invocation the spec's control table
promises for `CAPTURE_PANE:win.pane` — the ANSI-captured content of pane
`pane` of window `win` (compare `TmuxManager.capture_pane_content`, which
targets `session:win.pane` with `-e`). -/
def spec_capture_pane_cmd (sessionName : String) (winIdx paneIdx : Nat) : List String :=
  ["tmux", "capture-pane", "-p", "-e", "-t",
    strCat (strCat (strCat (strCat sessionName ":") (toString winIdx)) ".") (toString paneIdx)]

/-! ## ws/bridge.py — authentication handshake and message loop -/

/-- A stored bridge configuration (`bridges/<uuid>.json`): the fields the
handshake uses. -/
structure BridgeCfg where
  id : String
  token : String
  deriving Repr, DecidableEq

/-- Modelled from the spec: `store.get_bridge_by_token` is called by
`ws/bridge.py` but absent from the snapshot's `store.py`.  The spec says
the server looks up a stored bridge config by token. -/
def get_bridge_by_token (configs : List BridgeCfg) (token : String) : Option BridgeCfg :=
  configs.find? (fun c => c.token == token)

/-- A registered bridge connection as held in `BridgeManager.bridges`. -/
structure BridgeConn where
  bridgeId : String
  name : String
  ws : Nat
  state : BridgeConnState
  deriving Repr, DecidableEq

/-- `BridgeManager.register(bridge_id, name, ws)`: build a fresh
`BridgeConnection` and store it under `bridge_id`. -/
def bm_register (bridges : List (String × BridgeConn)) (bridgeId name : String) (ws : Nat) :
    List (String × BridgeConn) :=
  (bridgeId, { bridgeId := bridgeId, name := name, ws := ws, state := initConn }) ::
    bridges.filter (fun p => p.1 ≠ bridgeId)

/-- `BridgeManager.unregister(bridge_id)`: `self.bridges.pop(bridge_id, None)`. -/
def bm_unregister (bridges : List (String × BridgeConn)) (bridgeId : String) :
    List (String × BridgeConn) :=
  bridges.filter (fun p => p.1 ≠ bridgeId)

/-- `BridgeManager.get_bridge(bridge_id)`. -/
def bm_get_bridge (bridges : List (String × BridgeConn)) (bridgeId : String) :
    Option BridgeConn :=
  (bridges.find? (fun p => p.1 = bridgeId)).map (·.2)

/-- Observable actions of the handshake, in the order the server performs
them. -/
inductive AuthEvent where
  | sendAuthError (reason : String)
  | closeWs (code : Nat)
  | closeUserWs (userWs : Nat) (code : Nat)
  | sendAuthOk (bridgeId : String)
  deriving Repr, DecidableEq

/-- `BridgeConnection.close_all_terminals`: close every relayed user WS
with code 1001 and clear the relay map. -/
def close_all_terminals_events (s : BridgeConnState) : List AuthEvent :=
  s.terminals.map (fun p => .closeUserWs p.2 1001)

/-- The auth phase of `bridge_ws` for a first frame
`{"type": "auth", "token": token, "name": name}`: look the token up; on a
miss send `auth_error` and close with 4001; on a hit close the relayed
terminals of any pre-existing connection for the same bridge id,
unregister it, register the new connection, and send `auth_ok`.  Returns
the events in order and the updated `BridgeManager.bridges` map. -/
def bridge_ws_auth (configs : List BridgeCfg) (bridges : List (String × BridgeConn))
    (token name : String) (ws : Nat) : List AuthEvent × List (String × BridgeConn) :=
  match get_bridge_by_token configs token with
  | none => ([.sendAuthError "Invalid token", .closeWs 4001], bridges)
  | some cfg =>
    let pre := bm_get_bridge bridges cfg.id
    let closes := match pre with
      | some old => close_all_terminals_events old.state
      | none => []
    let bridges1 := match pre with
      | some _ => bm_unregister bridges cfg.id
      | none => bridges
    (closes ++ [.sendAuthOk cfg.id], bm_register bridges1 cfg.id name ws)

/-- `BridgeConnection.resolve_pending(req_id, result)`: resolve the
pending future when present and not yet done.  The model keeps resolved
results in place of futures. -/
def resolve_pending (pending : List (String × Option (List String))) (reqId : String)
    (result : List String) : List (String × Option (List String)) :=
  pending.map (fun p =>
    if p.1 = reqId ∧ p.2 = none then (p.1, some result) else p)

/-- The message types which, per the `bridge_ws` text-frame dispatch,
resolve a pending request future by its `id`. -/
def resolvingTypes : List String := ["attach_ok", "attach_error", "cmd_result"]

/-! ## The bridge upstream of the terminal proxy (C1) -/

/-- The JSON attach request sent to the agent. -/
structure AttachMsg where
  type : String
  id : String
  session_name : String
  window_index : Nat
  channel_id : Nat
  cols : Nat
  rows : Nat
  source : String
  deriving Repr, DecidableEq

/-- Result of setting up the bridge upstream, before byte pumping. -/
structure AttachSetup where
  conn : BridgeConnState
  channel : Nat
  msg : AttachMsg
  timeoutSecs : Nat
  awaitedTypes : List String
  deriving Repr, DecidableEq

/-- Modelled from the spec: the `bridge:` branch of `terminal_ws`
(`ws/terminal.py`) is absent from the snapshot — the handler there only
covers local, host and docker.  Per the spec the proxy allocates a channel
id on the agent connection (`allocate_channel` from the source), registers
the user WS under that channel (`register_terminal` from the source),
sends the `attach` request with the listed fields and awaits
`attach_ok`/`attach_error` with the 10 s `request` timeout from the
source, before byte pumping starts. -/
def bridge_attach_setup (s : BridgeConnState) (userWs : Nat) (reqId : String)
    (sessionName : String) (windowIndex cols rows : Nat) (source : String) : AttachSetup :=
  let a := allocate_channel s
  let s2 := register_terminal a.2 a.1 userWs
  { conn := s2
    channel := a.1
    msg := { type := "attach", id := reqId, session_name := sessionName,
             window_index := windowIndex, channel_id := a.1, cols := cols,
             rows := rows, source := source }
    timeoutSecs := requestTimeoutSecs
    awaitedTypes := ["attach_ok", "attach_error"] }

/-! ## services/notification_manager.py -/

/-- The fields of `NotificationRecord` the claims touch; `timerActive`
models `_timer_task is not None and not _timer_task.done()`. -/
structure NotifRecord where
  id : String
  session_id : String
  container_id : String
  tmux_session : String
  tmux_window : Nat
  status : String
  channels : List String
  telegram_message_id : Option Nat := none
  timerActive : Bool := false
  deriving Repr, DecidableEq

/-- `all_channels = ["web", "os", "telegram"]` in `NotificationManager.create`. -/
def allChannels : List String := ["web", "os", "telegram"]

/-- Channel validation in `NotificationManager.create`:
`raw_channels = data.get("channels") or []` and
`channels = [c for c in raw_channels if c in all_channels] or all_channels`
(a falsy — empty — filtered list falls back to all three channels). -/
def validate_channels (raw : Option (List String)) : List String :=
  let rawL := raw.getD []
  let filtered := rawL.filter (fun c => c ∈ allChannels)
  if filtered.isEmpty then allChannels else filtered

/-- `NotificationManager._get_timeout()`:
`store.get_settings().get("telegramNotificationTimeoutSecs", 60)`.  The
settings are the numeric-valued keys of `settings.json`. -/
def get_timeout (settings : List (String × Nat)) : Nat :=
  (settings.lookup "telegramNotificationTimeoutSecs").getD 60

/-- The numeric entry of `_DEFAULT_SETTINGS` in `store.py` relevant here. -/
def defaultSettings : List (String × Nat) := [("telegramNotificationTimeoutSecs", 60)]

/-- The timer scheduling decision in `NotificationManager.create`: when
`"telegram" in record.channels` exactly one task running
`_schedule_telegram(record.id, delay)` is created, with
`delay = 0 if "web" not in record.channels else self._get_timeout()`;
otherwise no timer exists. -/
def telegram_timer_delay (channels : List String) (settings : List (String × Nat)) :
    Option Nat :=
  if "telegram" ∈ channels then
    some (if "web" ∉ channels then 0 else get_timeout settings)
  else none

/-- `NotificationManager._schedule_telegram` after the sleep: `cancelled`
is whether the sleep raised `CancelledError` (the timer was cancelled);
`rec` is `self._notifications.get(notification_id)`; `botPresent` is
`self._telegram_bot` being set and `sendOk` whether
`send_notification` returns without raising.  The first component tells
whether Telegram was sent; the second is the record afterwards. -/
def schedule_telegram_fire (cancelled : Bool) (rec : Option NotifRecord)
    (botPresent sendOk : Bool) : Bool × Option NotifRecord :=
  if cancelled then (false, rec)
  else match rec with
  | none => (false, none)
  | some r =>
    if r.status ≠ "pending" then (false, some r)
    else if botPresent then
      if sendOk then (true, some { r with status := "telegram_sent" })
      else (false, some r)
    else (false, some r)

/-- The per-record filter match in `NotificationManager.dismiss`: an empty
string (or `None` window) means the filter is absent. -/
def dismiss_match (sid cid ts : String) (tw : Option Nat) (r : NotifRecord) : Bool :=
  (sid == "" || r.session_id == sid) &&
  (cid == "" || r.container_id == cid) &&
  (ts == "" || r.tmux_session == ts) &&
  (match tw with | none => true | some w => r.tmux_window == w)

/-- One record under `NotificationManager.dismiss`: records whose status
is `"dismissed"` are skipped; a matching record — whatever its current
status otherwise — has its timer cancelled and its status set to
`"dismissed"`.  The Bool reports whether it was counted. -/
def dismiss_step (sid cid ts : String) (tw : Option Nat) (r : NotifRecord) :
    NotifRecord × Bool :=
  if r.status == "dismissed" then (r, false)
  else if dismiss_match sid cid ts tw r then
    ({ r with status := "dismissed", timerActive := false }, true)
  else (r, false)

/-- `NotificationManager.dismiss` over the record store: returns the
updated records and the count of dismissals. -/
def dismiss (sid cid ts : String) (tw : Option Nat) (records : List NotifRecord) :
    List NotifRecord × Nat :=
  ((records.map (fun r => (dismiss_step sid cid ts tw r).1)),
   (records.filter (fun r => (dismiss_step sid cid ts tw r).2)).length)

/-! ## services/debug_log.py -/

/-- One debug log entry (`LogEntry`): level, source, message, optional
detail. -/
structure DbgEntry where
  level : String
  src : String
  message : String
  detail : Option String := none
  deriving Repr, DecidableEq

/-- `DebugLog` capacity: `deque(maxlen=2000)` via the default
`maxlen: int = 2000` used by the singleton. -/
def debugLogMaxLen : Nat := 2000

/-- `deque(maxlen=2000).append`: when the buffer is full the oldest entry
is evicted from the left before the new entry is appended on the right. -/
def dlog_append (entries : List DbgEntry) (e : DbgEntry) : List DbgEntry :=
  if entries.length < debugLogMaxLen then entries ++ [e]
  else (entries.drop (entries.length + 1 - debugLogMaxLen)) ++ [e]

/-- The operations exposed by `DebugLog`: `info`, `warn` and `error` all
append an entry with the matching level; `clear` empties the buffer. -/
inductive DlogOp where
  | info (src message : String) (detail : Option String)
  | warn (src message : String) (detail : Option String)
  | error (src message : String) (detail : Option String)
  | clear
  deriving Repr, DecidableEq

/-- Apply one `DebugLog` operation. -/
def dlog_apply (entries : List DbgEntry) : DlogOp → List DbgEntry
  | .info s m d => dlog_append entries { level := "info", src := s, message := m, detail := d }
  | .warn s m d => dlog_append entries { level := "warn", src := s, message := m, detail := d }
  | .error s m d => dlog_append entries { level := "error", src := s, message := m, detail := d }
  | .clear => []

/-- Run a sequence of `DebugLog` operations from the empty buffer. -/
def dlog_run (ops : List DlogOp) : List DbgEntry :=
  ops.foldl dlog_apply []

/-! ## Helper lemmas -/

theorem wrapNext_bounds (n : Nat) (h1 : 1 ≤ n) (h2 : n ≤ 65535) :
    1 ≤ wrapNext n ∧ wrapNext n ≤ 65535 := by
  unfold wrapNext
  split <;> omega

theorem wrapNext_iterate (k n : Nat) (h1 : 1 ≤ n) (h2 : n ≤ 65535) :
    wrapNext^[k] n = (n - 1 + k) % 65535 + 1 := by
  induction k generalizing n with
  | zero => simp; omega
  | succ k ih =>
    rw [Function.iterate_succ_apply]
    have hb := wrapNext_bounds n h1 h2
    rw [ih (wrapNext n) hb.1 hb.2]
    unfold wrapNext
    split <;> omega

theorem iterAlloc_terminals (k : Nat) (s : BridgeConnState) :
    (iterAlloc k s).terminals = s.terminals := by
  induction k generalizing s with
  | zero => rfl
  | succ k ih => rw [iterAlloc, ih]; rfl

theorem iterAlloc_nextChannel (k : Nat) (s : BridgeConnState) :
    (iterAlloc k s).nextChannel = wrapNext^[k] s.nextChannel := by
  induction k generalizing s with
  | zero => rfl
  | succ k ih =>
    rw [iterAlloc, ih, Function.iterate_succ_apply]
    rfl

/-! ## C2 -/

/-- C2 (counterexample): starting from a fresh connection, allocate
channel 1 and register a user WS under it; after 65534 further
allocations the counter has wrapped all the way around, and the next
`allocate_channel` hands out channel 1 again even though it is still
present in the terminals map — the code never re-probes. -/
theorem allocate_channel_collision_cex :
    (allocate_channel (iterAlloc 65534 (register_terminal (allocate_channel initConn).2
        (allocate_channel initConn).1 77))).1 = 1 ∧
    get_terminal_ws (iterAlloc 65534 (register_terminal (allocate_channel initConn).2
        (allocate_channel initConn).1 77)) 1 = some 77 := by
  have hterm : (iterAlloc 65534 (register_terminal (allocate_channel initConn).2
      (allocate_channel initConn).1 77)).terminals = [(1, 77)] := by
    rw [iterAlloc_terminals]; rfl
  have hnext : (iterAlloc 65534 (register_terminal (allocate_channel initConn).2
      (allocate_channel initConn).1 77)).nextChannel = 1 := by
    rw [iterAlloc_nextChannel]
    have h2 : (register_terminal (allocate_channel initConn).2
        (allocate_channel initConn).1 77).nextChannel = 2 := rfl
    rw [h2, wrapNext_iterate 65534 2 (by omega) (by omega)]
  have hfst : ∀ s : BridgeConnState, (allocate_channel s).1 = s.nextChannel :=
    fun _ => rfl
  refine ⟨?_, ?_⟩
  · rw [hfst]
    exact hnext
  · unfold get_terminal_ws
    rw [hterm]
    rfl

/-- C2 (amended): every channel id returned by `allocate_channel` on a
state whose counter is in range satisfies `1 ≤ c ≤ 65535`, the counter
advances monotonically wrapping past 65535 back to 1, and the terminals
map is never consulted — the returned id is whatever the counter holds,
so a freshly allocated id can coincide with one already registered. -/
theorem allocate_channel_range_wrap (s : BridgeConnState)
    (h1 : 1 ≤ s.nextChannel) (h2 : s.nextChannel ≤ 65535) :
    1 ≤ (allocate_channel s).1 ∧ (allocate_channel s).1 ≤ 65535 ∧
    (allocate_channel s).1 = s.nextChannel ∧
    (allocate_channel s).2.nextChannel =
      (if (allocate_channel s).1 = 65535 then 1 else (allocate_channel s).1 + 1) ∧
    (allocate_channel s).2.terminals = s.terminals ∧
    (∀ t, (allocate_channel { s with terminals := t }).1 = (allocate_channel s).1) := by
  refine ⟨h1, h2, rfl, ?_, rfl, fun t => rfl⟩
  show wrapNext s.nextChannel = if s.nextChannel = 65535 then 1 else s.nextChannel + 1
  unfold wrapNext
  split <;> split <;> omega

/-- Witness for C2: the amended theorem applied to a fresh connection
state. -/
theorem allocate_channel_range_wrap_witness :
    1 ≤ initConn.nextChannel ∧ initConn.nextChannel ≤ 65535 ∧
    (allocate_channel initConn).1 = 1 ∧
    (allocate_channel initConn).2.nextChannel = 2 := by
  have h := allocate_channel_range_wrap initConn (by decide) (by decide)
  exact ⟨by decide, by decide, h.2.2.1, by decide⟩

/-! ## C3 -/

theorem strCat_marker_source (cid : String) (hb : is_bridge cid = true) :
    strCat "bridge:" (bridge_source_from_container cid) = cid := by
  unfold is_bridge strStartsWith bridgeMarker at hb
  rw [List.isPrefixOf_iff_prefix] at hb
  obtain ⟨t, ht⟩ := hb
  unfold strCat bridge_source_from_container strDrop
  cases cid with
  | mk data =>
    simp only at ht ⊢
    rw [← ht]
    have h7 : "bridge:".data.length = 7 := rfl
    rw [← h7, List.drop_left]

theorem agent_list_sessions_id (md5hex : String → String) (src out : String) :
    ∀ s ∈ agent_list_sessions md5hex src out,
      s.id = agent_session_id md5hex s.source s.name := by
  intro s hs
  unfold agent_list_sessions at hs
  rw [List.mem_map] at hs
  obtain ⟨ln, _, rfl⟩ := hs
  rfl

/-- C3: every tmux session returned by the facade `list_sessions` — for
bridge containers via the agent-reported cache, and for every other kind
of container via `make_session_id` — carries
`id = md5hex(container_id ++ ":" ++ name)[:12]`.  The hypothesis is the
agent invariant established by `agent_list_sessions_id`: each cached
session is hashed as `"bridge:" ++ source ++ ":" ++ name`. -/
theorem list_sessions_id_correct (md5hex : String → String) (cid : String)
    (connSessions : Option (List SessionRec)) (out : String)
    (hAgent : ∀ s ∈ connSessions.getD [], s.id = agent_session_id md5hex s.source s.name) :
    ∀ s ∈ list_sessions md5hex cid connSessions out,
      s.id = make_session_id md5hex cid s.name := by
  intro s hs
  unfold list_sessions at hs
  by_cases hb : is_bridge cid = true
  · rw [if_pos hb] at hs
    cases connSessions with
    | none => simp at hs
    | some ss =>
      simp only [Option.getD_some] at hAgent
      rw [List.mem_filter] at hs
      obtain ⟨hmem, hsrc⟩ := hs
      have hsrc' : s.source = bridge_source_from_container cid := eq_of_beq hsrc
      have hid := hAgent s hmem
      rw [hid, hsrc']
      unfold agent_session_id make_session_id
      rw [strCat_marker_source cid hb]
  · rw [if_neg hb] at hs
    rw [List.mem_map] at hs
    obtain ⟨ln, _, rfl⟩ := hs
    rfl

/-- Witness for C3: a bridge container whose cached agent sessions were
produced by the agent listing, evaluated with a concrete digest
function. -/
theorem list_sessions_id_correct_witness :
    (∀ s ∈ (some (agent_list_sessions (fun s => strCat s "#") "local"
        "main|2|123|1")).getD [],
      s.id = agent_session_id (fun s => strCat s "#") s.source s.name) ∧
    (∀ s ∈ list_sessions (fun s => strCat s "#") "bridge:local"
        (some (agent_list_sessions (fun s => strCat s "#") "local" "main|2|123|1")) "",
      s.id = make_session_id (fun s => strCat s "#") "bridge:local" s.name) := by
  refine ⟨by decide, ?_⟩
  exact list_sessions_id_correct (fun s => strCat s "#") "bridge:local"
    (some (agent_list_sessions (fun s => strCat s "#") "local" "main|2|123|1")) ""
    (by decide)

/-! ## C4 -/

theorem bm_get_bridge_register (bridges : List (String × BridgeConn))
    (bridgeId name : String) (ws : Nat) :
    bm_get_bridge (bm_register bridges bridgeId name ws) bridgeId =
      some { bridgeId := bridgeId, name := name, ws := ws, state := initConn } := by
  unfold bm_get_bridge bm_register
  simp

/-- C4: for a first frame `auth` with the given token and name, a token
that matches no stored bridge config yields an `auth_error` reply and a
close with code 4001, leaving the registry untouched; a matching token
first closes the relayed terminals of any pre-existing connection for the
same bridge id and unregisters it, then registers the new connection and
replies `auth_ok` with the bridge id. -/
theorem bridge_ws_auth_correct (configs : List BridgeCfg)
    (bridges : List (String × BridgeConn)) (token name : String) (ws : Nat) :
    (get_bridge_by_token configs token = none →
      bridge_ws_auth configs bridges token name ws =
        ([.sendAuthError "Invalid token", .closeWs 4001], bridges)) ∧
    (∀ cfg old, get_bridge_by_token configs token = some cfg →
      bm_get_bridge bridges cfg.id = some old →
      (bridge_ws_auth configs bridges token name ws).1 =
        close_all_terminals_events old.state ++ [.sendAuthOk cfg.id] ∧
      (bridge_ws_auth configs bridges token name ws).2 =
        bm_register (bm_unregister bridges cfg.id) cfg.id name ws) ∧
    (∀ cfg, get_bridge_by_token configs token = some cfg →
      bm_get_bridge bridges cfg.id = none →
      (bridge_ws_auth configs bridges token name ws).1 = [.sendAuthOk cfg.id] ∧
      (bridge_ws_auth configs bridges token name ws).2 =
        bm_register bridges cfg.id name ws) ∧
    (∀ cfg, get_bridge_by_token configs token = some cfg →
      bm_get_bridge (bridge_ws_auth configs bridges token name ws).2 cfg.id =
        some { bridgeId := cfg.id, name := name, ws := ws, state := initConn }) := by
  refine ⟨?_, ?_, ?_, ?_⟩
  · intro hmiss
    unfold bridge_ws_auth
    rw [hmiss]
  · intro cfg old hhit hold
    unfold bridge_ws_auth
    rw [hhit]
    exact ⟨by simp [hold], by simp [hold]⟩
  · intro cfg hhit hnone
    unfold bridge_ws_auth
    rw [hhit]
    exact ⟨by simp [hnone], by simp [hnone]⟩
  · intro cfg hhit
    unfold bridge_ws_auth
    rw [hhit]
    simp only
    cases bm_get_bridge bridges cfg.id <;> exact bm_get_bridge_register ..

/-- Witness for C4: a concrete store with one config, exercised on a bad
token, on a reconnect that replaces an old connection holding one relayed
terminal, and on a first connect. -/
theorem bridge_ws_auth_correct_witness :
    (bridge_ws_auth [⟨"b1", "tok"⟩] [] "bad" "agent" 7 =
      ([.sendAuthError "Invalid token", .closeWs 4001], [])) ∧
    ((bridge_ws_auth [⟨"b1", "tok"⟩]
        [("b1", { bridgeId := "b1", name := "old", ws := 3,
                  state := { pending := [], terminals := [(5, 42)], nextChannel := 9 } })]
        "tok" "agent" 7).1 =
      [.closeUserWs 42 1001, .sendAuthOk "b1"]) ∧
    ((bridge_ws_auth [⟨"b1", "tok"⟩] [] "tok" "agent" 7).1 = [.sendAuthOk "b1"]) := by
  refine ⟨?_, ?_, ?_⟩
  · exact (bridge_ws_auth_correct [⟨"b1", "tok"⟩] [] "bad" "agent" 7).1 (by decide)
  · exact ((bridge_ws_auth_correct [⟨"b1", "tok"⟩]
      [("b1", { bridgeId := "b1", name := "old", ws := 3,
                state := { pending := [], terminals := [(5, 42)], nextChannel := 9 } })]
      "tok" "agent" 7).2.1 ⟨"b1", "tok"⟩
      { bridgeId := "b1", name := "old", ws := 3,
        state := { pending := [], terminals := [(5, 42)], nextChannel := 9 } }
      (by decide) (by decide)).1
  · exact ((bridge_ws_auth_correct [⟨"b1", "tok"⟩] [] "tok" "agent" 7).2.2.1
      ⟨"b1", "tok"⟩ (by decide) (by decide)).1

/-! ## C1 -/

theorem get_terminal_ws_register (s : BridgeConnState) (ch ws : Nat) :
    get_terminal_ws (register_terminal s ch ws) ch = some ws := by
  unfold get_terminal_ws register_terminal
  simp

/-- C1: for a bridge-container terminal WebSocket, the upstream setup
allocates its channel with `allocate_channel` on the agent connection,
registers the user WS under that channel, sends an `attach` message
carrying exactly `type, id, session_name, window_index, channel_id, cols,
rows, source` with `channel_id` the allocated channel, and awaits
`attach_ok`/`attach_error` — both of which resolve pending requests in the
`bridge_ws` dispatch — under the 10 s `request` timeout, before byte
pumping starts. -/
theorem bridge_attach_setup_correct (s : BridgeConnState) (userWs : Nat)
    (reqId sessionName : String) (windowIndex cols rows : Nat) (source : String) :
    (bridge_attach_setup s userWs reqId sessionName windowIndex cols rows source).channel =
      (allocate_channel s).1 ∧
    get_terminal_ws
      (bridge_attach_setup s userWs reqId sessionName windowIndex cols rows source).conn
      (bridge_attach_setup s userWs reqId sessionName windowIndex cols rows source).channel =
      some userWs ∧
    (bridge_attach_setup s userWs reqId sessionName windowIndex cols rows source).msg =
      { type := "attach", id := reqId, session_name := sessionName,
        window_index := windowIndex,
        channel_id :=
          (bridge_attach_setup s userWs reqId sessionName windowIndex cols rows source).channel,
        cols := cols, rows := rows, source := source } ∧
    (bridge_attach_setup s userWs reqId sessionName windowIndex cols rows source).timeoutSecs =
      requestTimeoutSecs ∧
    requestTimeoutSecs = 10 ∧
    (bridge_attach_setup s userWs reqId sessionName windowIndex cols rows source).awaitedTypes =
      ["attach_ok", "attach_error"] ∧
    (∀ t ∈ (bridge_attach_setup s userWs reqId sessionName windowIndex cols
        rows source).awaitedTypes, t ∈ resolvingTypes) := by
  refine ⟨rfl, ?_, rfl, rfl, rfl, rfl, ?_⟩
  · exact get_terminal_ws_register ..
  · intro t ht
    have h : t = "attach_ok" ∨ t = "attach_error" := by
      simpa [bridge_attach_setup] using ht
    rcases h with rfl | rfl <;> decide

/-! ## C5 -/

/-- C5 (code evaluated at the failing input): `dismiss` matching by
`session_id` transitions a record whose status is `"telegram_sent"` to
`"dismissed"` and counts it — the loop only skips records that are
already `"dismissed"`, so the transition `telegram_sent → dismissed`
happens, contrary to the docstring `Dismiss pending notifications`. -/
theorem dismiss_telegram_sent_bug :
    dismiss "s1" "" "" none
      [{ id := "n1", session_id := "s1", container_id := "c1", tmux_session := "m",
         tmux_window := 0, status := "telegram_sent", channels := allChannels,
         telegram_message_id := some 42, timerActive := false }] =
      ([{ id := "n1", session_id := "s1", container_id := "c1", tmux_session := "m",
          tmux_window := 0, status := "dismissed", channels := allChannels,
          telegram_message_id := some 42, timerActive := false }], 1) := by
  decide

/-! ## C6 -/

/-- C6: a created notification schedules a one-shot Telegram timer
exactly when `telegram` is among its channels — with delay 0 when `web`
is absent and the configured `telegramNotificationTimeoutSecs`
(default 60) otherwise; when the timer fires, Telegram is sent and the
status moves to `telegram_sent` only if the record still exists with
status `pending`; a cancelled timer sends nothing and leaves the record
as it was. -/
theorem notification_telegram_schedule (channels : List String)
    (settings : List (String × Nat)) (cancelled botPresent sendOk : Bool)
    (rec : Option NotifRecord) :
    ((telegram_timer_delay channels settings).isSome ↔ "telegram" ∈ channels) ∧
    ("telegram" ∈ channels → "web" ∉ channels →
      telegram_timer_delay channels settings = some 0) ∧
    ("telegram" ∈ channels → "web" ∈ channels →
      telegram_timer_delay channels settings = some (get_timeout settings)) ∧
    get_timeout defaultSettings = 60 ∧ get_timeout [] = 60 ∧
    ((schedule_telegram_fire cancelled rec botPresent sendOk).1 = true →
      cancelled = false ∧ ∃ r, rec = some r ∧ r.status = "pending") ∧
    (∀ r, rec = some r →
      (schedule_telegram_fire cancelled rec botPresent sendOk).2 ≠ some r →
      r.status = "pending" ∧ cancelled = false ∧
      (schedule_telegram_fire cancelled rec botPresent sendOk).1 = true ∧
      (schedule_telegram_fire cancelled rec botPresent sendOk).2 =
        some { r with status := "telegram_sent" }) ∧
    (cancelled = true →
      schedule_telegram_fire cancelled rec botPresent sendOk = (false, rec)) := by
  refine ⟨?_, ?_, ?_, rfl, rfl, ?_, ?_, ?_⟩
  · unfold telegram_timer_delay
    split <;> simp_all
  · intro h1 h2
    unfold telegram_timer_delay
    rw [if_pos h1, if_pos h2]
  · intro h1 h2
    unfold telegram_timer_delay
    rw [if_pos h1, if_neg (by simp [h2])]
  · unfold schedule_telegram_fire
    cases cancelled with
    | true => simp
    | false =>
      cases rec with
      | none => simp
      | some r =>
        by_cases hp : r.status = "pending" <;> cases botPresent <;> cases sendOk <;>
          simp_all
  · intro r hr
    subst hr
    unfold schedule_telegram_fire
    cases cancelled with
    | true => simp
    | false =>
      by_cases hp : r.status = "pending" <;> cases botPresent <;> cases sendOk <;>
        simp_all
  · intro hc
    subst hc
    rfl

/-- Witness for C6: concrete channel lists and a concrete pending record,
exercising the immediate-delay case, the deferred default-delay case and
the cancelled-timer case through the theorem. -/
theorem notification_telegram_schedule_witness :
    telegram_timer_delay ["telegram"] defaultSettings = some 0 ∧
    telegram_timer_delay ["web", "telegram"] defaultSettings = some 60 ∧
    schedule_telegram_fire true
      (some { id := "n1", session_id := "s", container_id := "c", tmux_session := "m",
              tmux_window := 0, status := "pending", channels := ["web", "telegram"] })
      true true =
      (false, some { id := "n1", session_id := "s", container_id := "c",
                     tmux_session := "m", tmux_window := 0, status := "pending",
                     channels := ["web", "telegram"] }) := by
  refine ⟨?_, ?_, ?_⟩
  · exact (notification_telegram_schedule ["telegram"] defaultSettings false false false
      none).2.1 (by decide) (by decide)
  · have h := (notification_telegram_schedule ["web", "telegram"] defaultSettings
      false false false none).2.2.1 (by decide) (by decide)
    rw [h]
    rfl
  · exact (notification_telegram_schedule ["web", "telegram"] defaultSettings true true true
      (some { id := "n1", session_id := "s", container_id := "c", tmux_session := "m",
              tmux_window := 0, status := "pending",
              channels := ["web", "telegram"] })).2.2.2.2.2.2.2 rfl

/-! ## C7 -/

/-- C7: `_run_cmd` either hands back the stdout of the dispatched command
(subprocess, docker exec, or the `output` field of a bridge
`cmd_result`) or the empty string; for a bridge container it returns the
empty string when no bridge connection exists, when the correlated
`cmd_result` carries a truthy `error`, and when the RPC times out. -/
theorem run_cmd_stdout_or_empty (cid : String) (env : RunEnv) :
    (runCmd cid env = "" ∨ runCmd cid env = env.subprocessStdout ∨
      runCmd cid env = env.dockerStdout ∨
      ∃ err out, env.bridgeConn = some (.result err out) ∧
        runCmd cid env = out.getD "") ∧
    (is_bridge cid = true → env.bridgeConn = none → runCmd cid env = "") ∧
    (is_bridge cid = true → env.bridgeConn = some .timeout → runCmd cid env = "") ∧
    (∀ err out, is_bridge cid = true → env.bridgeConn = some (.result err out) →
      errTruthy err = true → runCmd cid env = "") ∧
    (∀ err out, is_bridge cid = true → env.bridgeConn = some (.result err out) →
      errTruthy err = false → runCmd cid env = out.getD "") := by
  have hbridge : is_bridge cid = true → is_local cid = false ∧ is_host cid = false := by
    intro hb
    constructor
    · by_cases h : is_local cid = true
      · have : cid = "local" := eq_of_beq h
        rw [this] at hb
        exact absurd hb (by decide)
      · simpa using h
    · by_cases h : is_host cid = true
      · have : cid = "host" := eq_of_beq h
        rw [this] at hb
        exact absurd hb (by decide)
      · simpa using h
  refine ⟨?_, ?_, ?_, ?_, ?_⟩
  · unfold runCmd
    split
    · exact Or.inr (Or.inl rfl)
    · split
      · exact Or.inr (Or.inl rfl)
      · split
        · match henv : env.bridgeConn with
          | none => exact Or.inl rfl
          | some .timeout => exact Or.inl rfl
          | some (.result err out) =>
            by_cases he : errTruthy err = true
            · exact Or.inl (by simp [he])
            · exact Or.inr (Or.inr (Or.inr ⟨err, out, rfl, by simp [he]⟩))
        · exact Or.inr (Or.inr (Or.inl rfl))
  · intro hb hc
    obtain ⟨hl, hh⟩ := hbridge hb
    unfold runCmd
    rw [hl, hh, hb, hc]
    rfl
  · intro hb hc
    obtain ⟨hl, hh⟩ := hbridge hb
    unfold runCmd
    rw [hl, hh, hb, hc]
    rfl
  · intro err out hb hc he
    obtain ⟨hl, hh⟩ := hbridge hb
    unfold runCmd
    rw [hl, hh, hb, hc]
    simp [he]
  · intro err out hb hc he
    obtain ⟨hl, hh⟩ := hbridge hb
    unfold runCmd
    rw [hl, hh, hb, hc]
    simp [he]

/-- Witness for C7: a bridge container exercised on all three failure
shapes and on a successful `cmd_result`. -/
theorem run_cmd_stdout_or_empty_witness :
    runCmd "bridge:a"
      { subprocessStdout := "S", bridgeConn := none,
        dockerStdout := "D" } = "" ∧
    runCmd "bridge:a"
      { subprocessStdout := "S", bridgeConn := some .timeout,
        dockerStdout := "D" } = "" ∧
    runCmd "bridge:a"
      { subprocessStdout := "S",
        bridgeConn := some (.result (some "boom") (some "out")),
        dockerStdout := "D" } = "" ∧
    runCmd "bridge:a"
      { subprocessStdout := "S",
        bridgeConn := some (.result none (some "out")),
        dockerStdout := "D" } = "out" := by
  refine ⟨?_, ?_, ?_, ?_⟩
  · exact (run_cmd_stdout_or_empty "bridge:a"
      { subprocessStdout := "S", bridgeConn := none,
        dockerStdout := "D" }).2.1 (by decide) rfl
  · exact (run_cmd_stdout_or_empty "bridge:a"
      { subprocessStdout := "S", bridgeConn := some .timeout,
        dockerStdout := "D" }).2.2.1 (by decide) rfl
  · exact (run_cmd_stdout_or_empty "bridge:a"
      { subprocessStdout := "S",
        bridgeConn := some (.result (some "boom") (some "out")),
        dockerStdout := "D" }).2.2.2.1 (some "boom") (some "out") (by decide) rfl (by decide)
  · exact (run_cmd_stdout_or_empty "bridge:a"
      { subprocessStdout := "S",
        bridgeConn := some (.result none (some "out")),
        dockerStdout := "D" }).2.2.2.2 none (some "out") (by decide) rfl (by decide)

/-! ## C8 -/

/-- C8 (code evaluated at the failing input): for the control frame
`CAPTURE_PANE:1.0` on session `main`, the handler issues
`tmux capture-pane -p -t main:1` — the pane index never reaches the tmux
target and, having been passed into the `ansi` parameter, a pane index of
0 is falsy so `-e` is omitted; the spec's promised invocation targets
pane `1.0` with `-e`.  For a nonzero pane index the `-e` flag appears but
the target still omits the pane.  The reply prefix itself matches the
spec. -/
theorem capture_pane_handler_bug :
    capture_pane_handler_cmd "main" 1 0 = ["tmux", "capture-pane", "-p", "-t", "main:1"] ∧
    ¬ ("-e" ∈ capture_pane_handler_cmd "main" 1 0) ∧
    capture_pane_handler_cmd "main" 1 2 =
      ["tmux", "capture-pane", "-p", "-e", "-t", "main:1"] ∧
    spec_capture_pane_cmd "main" 1 0 =
      ["tmux", "capture-pane", "-p", "-e", "-t", "main:1.0"] ∧
    capture_pane_handler_cmd "main" 1 0 ≠ spec_capture_pane_cmd "main" 1 0 ∧
    capture_pane_handler_cmd "main" 1 2 ≠ spec_capture_pane_cmd "main" 1 2 ∧
    capture_pane_reply 1 0 "X" = "PANE_CONTENT:1.0:X" := by
  decide

/-! ## C9 -/

theorem dlog_append_length (st : List DbgEntry) (e : DbgEntry)
    (h : st.length ≤ debugLogMaxLen) :
    (dlog_append st e).length ≤ debugLogMaxLen := by
  unfold dlog_append debugLogMaxLen at *
  split <;> simp <;> omega

theorem dlog_apply_length (st : List DbgEntry) (op : DlogOp)
    (h : st.length ≤ debugLogMaxLen) :
    (dlog_apply st op).length ≤ debugLogMaxLen := by
  cases op with
  | clear => simp [dlog_apply, debugLogMaxLen]
  | info s m d => exact dlog_append_length st _ h
  | warn s m d => exact dlog_append_length st _ h
  | error s m d => exact dlog_append_length st _ h

theorem dlog_foldl_length (ops : List DlogOp) :
    ∀ st : List DbgEntry, st.length ≤ debugLogMaxLen →
      (ops.foldl dlog_apply st).length ≤ debugLogMaxLen := by
  induction ops with
  | nil => intro st h; simpa using h
  | cons op ops ih =>
    intro st h
    exact ih (dlog_apply st op) (dlog_apply_length st op h)

/-- C9: starting from the empty buffer, no sequence of `info`/`warn`/
`error`/`clear` operations ever takes the debug log past 2000 entries;
one append to any in-capacity buffer stays in capacity; an append to a
full buffer evicts exactly the oldest entry (FIFO); and `clear` empties
the buffer. -/
theorem debug_log_ring_bounded (ops : List DlogOp) (st : List DbgEntry) (e : DbgEntry) :
    (dlog_run ops).length ≤ debugLogMaxLen ∧
    (st.length ≤ debugLogMaxLen → (dlog_append st e).length ≤ debugLogMaxLen) ∧
    (st.length = debugLogMaxLen → dlog_append st e = st.tail ++ [e]) ∧
    dlog_apply st .clear = [] := by
  refine ⟨?_, fun h => dlog_append_length st e h, ?_, rfl⟩
  · exact dlog_foldl_length ops [] (by simp)
  · intro hfull
    unfold dlog_append
    rw [if_neg (by omega), hfull]
    have h1 : debugLogMaxLen + 1 - debugLogMaxLen = 1 := by
      unfold debugLogMaxLen
      omega
    rw [h1, List.drop_one]

/-- Witness for C9: a two-operation run, and an append to a concrete full
buffer of 2000 identical entries. -/
theorem debug_log_ring_bounded_witness :
    (dlog_run [.info "tmux" "x" none, .clear]).length ≤ debugLogMaxLen ∧
    dlog_append (List.replicate 2000 { level := "info", src := "s", message := "m" })
        { level := "warn", src := "s", message := "n" } =
      (List.replicate 2000
        { level := "info", src := "s", message := "m" }).tail ++
        [{ level := "warn", src := "s", message := "n" }] := by
  refine ⟨?_, ?_⟩
  · exact (debug_log_ring_bounded [.info "tmux" "x" none, .clear] []
      { level := "info", src := "s", message := "m" }).1
  · exact (debug_log_ring_bounded []
      (List.replicate 2000 { level := "info", src := "s", message := "m" })
      { level := "warn", src := "s", message := "n" }).2.2.1
      (by rw [List.length_replicate]; rfl)

/-! ## C10 -/

/-- C10: channel validation discards entries outside
`{web, os, telegram}`; when nothing valid remains — including a non-empty
request list made only of unrecognized names — the record gets exactly
`[web, os, telegram]`, which contains `telegram`, so the Telegram timer
is still scheduled. -/
theorem validate_channels_correct (raw : Option (List String)) :
    (∀ c ∈ validate_channels raw, c ∈ allChannels) ∧
    ((raw.getD []).filter (fun c => c ∈ allChannels) ≠ [] →
      validate_channels raw = (raw.getD []).filter (fun c => c ∈ allChannels)) ∧
    ((raw.getD []).filter (fun c => c ∈ allChannels) = [] →
      validate_channels raw = ["web", "os", "telegram"] ∧
      "telegram" ∈ validate_channels raw ∧
      (telegram_timer_delay (validate_channels raw) defaultSettings).isSome = true) := by
  refine ⟨?_, ?_, ?_⟩
  · intro c hc
    unfold validate_channels at hc
    by_cases h : ((raw.getD []).filter (fun c => c ∈ allChannels)).isEmpty = true
    · rw [if_pos h] at hc
      exact hc
    · rw [if_neg h] at hc
      have := List.mem_filter.mp hc
      simpa using this.2
  · intro h
    unfold validate_channels
    rw [if_neg (by simpa [List.isEmpty_iff] using h)]
  · intro h
    have hres : validate_channels raw = allChannels := by
      unfold validate_channels
      rw [if_pos (by simpa [List.isEmpty_iff] using h)]
    refine ⟨hres, ?_, ?_⟩
    · rw [hres]; decide
    · rw [hres]; decide

/-- Witness for C10: a non-empty request list of only unrecognized
channel names still yields all three channels and a scheduled Telegram
timer. -/
theorem validate_channels_correct_witness :
    validate_channels (some ["bogus", "junk"]) = ["web", "os", "telegram"] ∧
    "telegram" ∈ validate_channels (some ["bogus", "junk"]) ∧
    (telegram_timer_delay (validate_channels (some ["bogus", "junk"]))
      defaultSettings).isSome = true := by
  exact (validate_channels_correct (some ["bogus", "junk"])).2.2 (by decide)

end TmuxDeck
